import Mathlib

/-!
Verification of the CareBot position-change system against its specification.

The repository ships the Vue 3 dashboard (src/App.vue) as source code; the
Position-Change Control Engine (safety monitor, motion planner, rotation
scheduler, control state machine) lives in carebot_core, which is not part of
the source tree here, so those components are modelled from the specification
text and marked as such in their doc comments.  Dashboard definitions are
translated directly from src/App.vue.
-/

/-! ## Control-engine data model -/

/-- Modelled from the spec: the four fixed actuator identifiers
(`HeadLeft`, `HeadRight`, `FootLeft`, `FootRight`). -/
inductive ActuatorId
  | headLeft
  | headRight
  | footLeft
  | footRight
  deriving DecidableEq, Repr

/-- Modelled from the spec: `Position` is one of a small closed set
(`Supine`, `LeftLateral30`, `RightLateral30`). -/
inductive Position
  | supine
  | leftLateral30
  | rightLateral30
  deriving DecidableEq, Repr

/-- Modelled from the spec: planner failure taxonomy (`InvalidTarget`,
`InvalidStepCount`). -/
inductive PlanError
  | invalidTarget
  | invalidStepCount
  deriving DecidableEq, Repr

/-- Modelled from the spec: canonical extension vector per position.
Supine = all actuators 0.0; LeftLateral30 = head-left/foot-left extended to a
calibration value `cal`, the right side at 0.0; RightLateral30 mirrored.
The calibration value is not pinned by the spec, so it is a parameter. -/
def canonical (cal : ℚ) : Position → ActuatorId → ℚ
  | .supine, _ => 0
  | .leftLateral30, .headLeft => cal
  | .leftLateral30, .footLeft => cal
  | .leftLateral30, _ => 0
  | .rightLateral30, .headRight => cal
  | .rightLateral30, .footRight => cal
  | .rightLateral30, _ => 0

/-- A motion plan step assigns a desired normalized extension to each
actuator; a plan is the ordered list of steps. -/
abbrev MotionPlan := List (ActuatorId → ℚ)

/-- Modelled from the spec: the planner's step list.  Step `i` (1-based)
extension for actuator `a` is `start + (end - start) * i / stepCount`, all
four actuators in lockstep on the same step index. -/
def planSteps (cal : ℚ) (current target : Position) (stepCount : Nat) : MotionPlan :=
  (List.range stepCount).map (fun (i : Nat) (a : ActuatorId) =>
    canonical cal current a +
      (canonical cal target a - canonical cal current a) * ((i : ℚ) + 1) / (stepCount : ℚ))

/-- Modelled from the spec: `plan(current, target, stepCount)`, failing with
`InvalidStepCount` if `stepCount < 1`; `current` and `target` are already
canonical `Position` values here (the string boundary is `planFromRequest`). -/
def plan (cal : ℚ) (current target : Position) (stepCount : Nat) :
    Except PlanError MotionPlan :=
  if stepCount < 1 then .error .invalidStepCount
  else .ok (planSteps cal current target stepCount)

/-- Modelled from the spec: `SafetyVerdict` — `Clear`, `EmergencyStopped`,
`Overload(channel)`, `NoPatientDetected`. -/
inductive SafetyVerdict
  | clear
  | emergencyStopped
  | overload (channel : ActuatorId)
  | noPatientDetected
  deriving DecidableEq, Repr

/-- Modelled from the spec: the inputs the Safety Monitor reads on each
check — the debounced emergency interlock signal (physical button OR
software-triggered flag), the sticky latched emergency state, the first
overloaded drive channel if any, and the aggregate patient-presence reading. -/
structure SafetyInputs where
  estopSignal : Bool
  stickyEstop : Bool
  overloadChannel : Option ActuatorId
  patientPresent : Bool
  deriving DecidableEq, Repr

/-- Modelled from the spec: `check() -> SafetyVerdict`.  Any true emergency
reading (signal or sticky latch) yields `EmergencyStopped` — highest priority;
overload is second priority; patient presence lowest. -/
def check (i : SafetyInputs) : SafetyVerdict :=
  if i.estopSignal || i.stickyEstop then .emergencyStopped
  else
    match i.overloadChannel with
    | some ch => .overload ch
    | none => if i.patientPresent then .clear else .noPatientDetected

/-- Modelled from the spec: `ControlState` — `Idle`, `Scheduled(nextDueAt)`,
`Moving(plan, stepIndex, reason)`, `Paused`, `EmergencyStopped`. -/
inductive ControlState
  | idle
  | scheduled (nextDueAt : Int)
  | moving (plan : MotionPlan) (stepIndex : Nat) (reason : String)
  | paused
  | emergencyStopped

/-- Modelled from the spec: result of `requestRotation`. -/
inductive RotationResult
  | accepted
  | busy
  | rejected (v : SafetyVerdict)
  | invalidStepCount

/-- Modelled from the spec: `requestRotation` in the Control Engine.  A
request received while already `Moving` fails with `Busy` and leaves the
in-flight plan unaffected (never queued or superseded); otherwise the Safety
Monitor is consulted, a non-clear verdict rejects the request without moving,
and on `Clear` a plan is built and the engine transitions to `Moving`. -/
def requestRotation (cal : ℚ) (st : ControlState) (i : SafetyInputs)
    (current target : Position) (stepCount : Nat) (reason : String) :
    RotationResult × ControlState :=
  match st with
  | .moving p idx r => (.busy, .moving p idx r)
  | st =>
    match check i with
    | .clear =>
      match plan cal current target stepCount with
      | .ok p => (.accepted, .moving p 0 reason)
      | .error _ => (.invalidStepCount, st)
    | v => (.rejected v, st)

/-- Modelled from the spec: result of `manualResume`. -/
inductive ResumeResult
  | ack
  | stillUnsafe (v : SafetyVerdict)
  deriving DecidableEq, Repr

/-- Modelled from the spec: `manualResume() -> Result<Ack, StillUnsafe(verdict)>`.
It fails if the underlying interlock is still asserted, leaving the sticky
latch and the control state untouched; on success it clears the sticky
interlock and transitions to `Scheduled(now + interval)`. -/
def manualResume (st : ControlState) (i : SafetyInputs) (now interval : Int) :
    ResumeResult × ControlState × SafetyInputs :=
  if i.estopSignal then (.stillUnsafe (check i), st, i)
  else
    match st with
    | .emergencyStopped => (.ack, .scheduled (now + interval), { i with stickyEstop := false })
    | st => (.ack, st, { i with stickyEstop := false })

/-- Modelled from the spec: the rotation scheduler's state — due time is
`lastRotation + interval`. -/
structure Scheduler where
  lastRotation : Int
  interval : Int
  paused : Bool
  deriving DecidableEq, Repr

/-- Modelled from the spec: `isDue(now)`; while paused, always false. -/
def isDue (sch : Scheduler) (now : Int) : Bool :=
  if sch.paused then false else decide (sch.lastRotation + sch.interval ≤ now)

/-- Modelled from the spec: the API boundary maps the dashboard's position
strings onto the three canonical `Position` values; any other string is not a
canonical position. -/
def parsePosition : String → Option Position
  | "supine" => some .supine
  | "left_lateral" => some .leftLateral30
  | "right_lateral" => some .rightLateral30
  | _ => none

/-- Modelled from the spec: planning from an externally supplied position
string — a target that is not one of the three canonical Positions fails with
`InvalidTarget`. -/
def planFromRequest (cal : ℚ) (current : Position) (targetValue : String)
    (stepCount : Nat) : Except PlanError MotionPlan :=
  match parsePosition targetValue with
  | none => .error .invalidTarget
  | some t => plan cal current t stepCount

/-! ## Dashboard data model (src/App.vue) -/

/-- One event-log entry, as consumed by the dashboard log panel
(`log.time`, `log.level`, `log.message`). -/
structure LogEntry where
  time : String
  level : String
  message : String
  deriving DecidableEq, Repr

/-- The status payload fields the dashboard reads
(src/App.vue template and `nextRotationCountdown`). `next_rotation_time` is
`none` when the field is absent/null. -/
structure Status where
  current_position : String
  current_position_ko : String
  is_paused : Bool
  next_rotation_time : Option Int
  total_rotations : Nat
  deriving DecidableEq, Repr

/-- The dashboard's reactive state (the `ref`s of src/App.vue lines 237-244). -/
structure DashboardState where
  status : Option Status
  eventLogs : List LogEntry
  aiSummary : Option String
  connectionStatus : String
  isMoving : Bool
  isEmergencyStopped : Bool
  isLoadingAi : Bool
  currentTime : String
  deriving DecidableEq, Repr

/-- Initial values of the dashboard refs (src/App.vue lines 237-244). -/
def initState : DashboardState :=
  { status := none
    eventLogs := []
    aiSummary := none
    connectionStatus := "disconnected"
    isMoving := false
    isEmergencyStopped := false
    isLoadingAi := false
    currentTime := "" }

/-- One entry of the dashboard's position list (src/App.vue lines 250-254). -/
structure PosEntry where
  value : String
  nameKo : String
  nameEn : String
  emoji : String
  deriving DecidableEq, Repr

/-- The dashboard's position list (src/App.vue lines 250-254). -/
def positions : List PosEntry :=
  [ { value := "supine", nameKo := "앙와위", nameEn := "Supine", emoji := "🛏️" }
  , { value := "left_lateral", nameKo := "좌측와위 (30°)", nameEn := "Left Lateral", emoji := "↩️" }
  , { value := "right_lateral", nameKo := "우측와위 (30°)", nameEn := "Right Lateral", emoji := "↪️" } ]

/-- A string of `n` zero characters (Char.ofNat 48 is the zero digit). -/
def zeroPad (n : Nat) : String :=
  String.mk (List.replicate n (Char.ofNat 48))

/-- JavaScript `str.padStart(2, '0')`: left-pad with zero digits up to
length 2; longer strings are returned unchanged. -/
def padStart2 (str : String) : String :=
  if 2 ≤ str.length then str else zeroPad (2 - str.length) ++ str

/-- The `nextRotationCountdown` computed property (src/App.vue lines 264-272):
absent `next_rotation_time` (or absent status) gives the em-dash placeholder;
a paused schedule gives the paused placeholder; otherwise the remaining time,
clamped at zero, is rendered as zero-padded minutes and seconds. -/
def nextRotationCountdown (s : DashboardState) (now : Int) : String :=
  match s.status with
  | none => "--:--"
  | some st =>
    match st.next_rotation_time with
    | none => "--:--"
    | some next =>
      if st.is_paused then "⏸️ --:--"
      else
        let diff := (max 0 (next - now)).toNat
        let mins := diff / 60000
        let secs := diff % 60000 / 1000
        padStart2 (toString mins) ++ ":" ++ padStart2 (toString secs)

/-- The WebSocket messages the dashboard handler distinguishes
(src/App.vue lines 289-303); `other` stands for any unrecognized type. -/
inductive WsMsg
  | initialStatus (data : Status)
  | statusUpdate (data : Status)
  | alert (data : LogEntry)
  | emergencyStop
  | other

/-- The `ws.onmessage` handler (src/App.vue lines 289-303): status messages
replace `status`; an alert is unshifted onto the log, popping the last entry
when the length exceeds 100; an emergency-stop message latches the emergency
flag and clears the moving flag; anything else is ignored. -/
def onMessage (s : DashboardState) : WsMsg → DashboardState
  | .initialStatus d => { s with status := some d }
  | .statusUpdate d => { s with status := some d }
  | .alert d =>
    let logs := d :: s.eventLogs
    { s with eventLogs := if logs.length > 100 then logs.dropLast else logs }
  | .emergencyStop => { s with isEmergencyStopped := true, isMoving := false }
  | .other => s

/-- Outcome of the rotation POST as observed by `rotateToPosition`:
the server answered success, the server answered failure, or the fetch threw. -/
inductive RotateOutcome
  | success
  | failure
  | networkError

/-- `rotateToPosition` (src/App.vue lines 337-361): an early return when
`isMoving` is already set (no request issued, state untouched); otherwise the
request is issued (second component carries the position sent) and the moving
flag ends up set only on success (the 20-second overlay timer is outside this
model). -/
def rotateToPosition (s : DashboardState) (pos : String) (o : RotateOutcome) :
    DashboardState × Option String :=
  if s.isMoving then (s, none)
  else
    match o with
    | .success => ({ s with isMoving := true }, some pos)
    | .failure => ({ s with isMoving := false }, some pos)
    | .networkError => ({ s with isMoving := false }, some pos)

/-- `triggerEmergencyStop` (src/App.vue lines 364-374): after the operator
confirms and the POST succeeds, the emergency flag is set and the moving flag
cleared; a cancelled dialog or a thrown fetch leaves the state unchanged. -/
def triggerEmergencyStop (s : DashboardState) (confirmed fetchOk : Bool) : DashboardState :=
  if !confirmed then s
  else if fetchOk then { s with isEmergencyStopped := true, isMoving := false }
  else s

/-- `resumeAfterEmergency` (src/App.vue lines 377-380): the local emergency
flag is cleared unconditionally, before the scheduler-resume call, and the
call's result (the parameter here) is never inspected. -/
def resumeAfterEmergency (s : DashboardState) (serverResult : ResumeResult) :
    DashboardState :=
  { s with isEmergencyStopped := false }

/-- A dashboard state in the emergency-stopped condition. -/
def estopState : DashboardState :=
  { initState with isEmergencyStopped := true }

/-- A dashboard state with a movement in flight. -/
def movingState : DashboardState :=
  { initState with isMoving := true }

/-- A status snapshot that is paused with no stored next rotation time. -/
def pausedNoNextStatus : Status :=
  { current_position := "supine"
    current_position_ko := "앙와위"
    is_paused := true
    next_rotation_time := none
    total_rotations := 0 }

/-- A status snapshot with 100 minutes remaining until the next rotation. -/
def longWaitStatus : Status :=
  { current_position := "supine"
    current_position_ko := "앙와위"
    is_paused := false
    next_rotation_time := some 6000000
    total_rotations := 0 }

/-- A status snapshot whose next rotation is due right now (epoch 0). -/
def dueNowStatus : Status :=
  { current_position := "supine"
    current_position_ko := "앙와위"
    is_paused := false
    next_rotation_time := some 0
    total_rotations := 0 }

/-- A status snapshot that is paused with a stored next rotation time. -/
def pausedWithNextStatus : Status :=
  { pausedNoNextStatus with next_rotation_time := some 100000 }

/-! ## Helper lemmas -/

theorem onMessage_length_le (s : DashboardState) (m : WsMsg)
    (h : s.eventLogs.length ≤ 100) : ((onMessage s m).eventLogs).length ≤ 100 := by
  cases m with
  | alert d =>
    simp only [onMessage]
    split
    · simp only [List.length_dropLast, List.length_cons]
      omega
    · next h2 =>
      simp only [List.length_cons, gt_iff_lt, not_lt] at h2
      simpa using h2
  | initialStatus d => simpa [onMessage] using h
  | statusUpdate d => simpa [onMessage] using h
  | emergencyStop => simpa [onMessage] using h
  | other => simpa [onMessage] using h

theorem foldl_onMessage_le (msgs : List WsMsg) :
    ∀ s : DashboardState, s.eventLogs.length ≤ 100 →
      (((msgs.foldl onMessage s)).eventLogs).length ≤ 100 := by
  induction msgs with
  | nil => intro s h; simpa using h
  | cons m ms ih =>
    intro s h
    exact ih _ (onMessage_length_le s m h)

theorem padStart2_length_two : ∀ k : Nat, k < 100 → (padStart2 (toString k)).length = 2 := by
  decide

/-! ## Claim theorems -/

/-- C1: the claim that the emergency-stopped state is cleared only when the
manual-resume call succeeds fails on src/App.vue: `resumeAfterEmergency`
clears `isEmergencyStopped` unconditionally and never inspects the call's
result, even when the spec-modelled `manualResume` refuses with
`StillUnsafe(EmergencyStopped)` and keeps both the control state and the
sticky latch because the interlock is still asserted. -/
theorem resumeAfterEmergency_clears_flag_unconditionally :
    (resumeAfterEmergency estopState (.stillUnsafe .emergencyStopped)).isEmergencyStopped = false ∧
    estopState.isEmergencyStopped = true ∧
    manualResume .emergencyStopped ⟨true, true, none, true⟩ 0 5400000 =
      (.stillUnsafe .emergencyStopped, .emergencyStopped, ⟨true, true, none, true⟩) :=
  ⟨rfl, rfl, rfl⟩

/-- C2: in every dashboard state — a movement in flight and a paused schedule
included — a confirmed and delivered emergency-stop request leaves the system
emergency-stopped with no movement in flight. -/
theorem triggerEmergencyStop_any_state (s : DashboardState) :
    (triggerEmergencyStop s true true).isEmergencyStopped = true ∧
    (triggerEmergencyStop s true true).isMoving = false :=
  ⟨rfl, rfl⟩

/-- C3: a rotation request received while a movement is in progress fails with
`Busy` and leaves the in-flight `Moving` state (plan, step index, reason)
unchanged, and the dashboard's `rotateToPosition` guard issues no request and
leaves its state untouched while `isMoving` is set. -/
theorem busy_rejection (cal : ℚ) (p : MotionPlan) (idx : Nat) (r : String)
    (i : SafetyInputs) (current target : Position) (n : Nat) (reason : String)
    (s : DashboardState) (pos : String) (o : RotateOutcome)
    (hm : s.isMoving = true) :
    requestRotation cal (.moving p idx r) i current target n reason =
      (.busy, .moving p idx r) ∧
    rotateToPosition s pos o = (s, none) := by
  refine ⟨rfl, ?_⟩
  simp [rotateToPosition, hm]

theorem busy_rejection_witness :
    requestRotation 1 (.moving [fun _ => 0] 3 "auto") ⟨false, false, none, true⟩
        .supine .leftLateral30 30 "manual" = (.busy, .moving [fun _ => 0] 3 "auto") ∧
    rotateToPosition movingState ("supine") .success = (movingState, none) :=
  busy_rejection 1 [fun _ => 0] 3 "auto" ⟨false, false, none, true⟩
    .supine .leftLateral30 30 "manual" movingState ("supine") .success rfl

/-- C4: when the emergency-stop condition and an overload condition hold
simultaneously, `check` returns `EmergencyStopped` — the highest-priority
verdict wins. -/
theorem check_emergency_priority (i : SafetyInputs) (ch : ActuatorId)
    (hE : i.estopSignal = true) (hO : i.overloadChannel = some ch) :
    check i = .emergencyStopped := by
  simp [check, hE]

theorem check_emergency_priority_witness :
    check ⟨true, false, some .headLeft, true⟩ = .emergencyStopped :=
  check_emergency_priority ⟨true, false, some .headLeft, true⟩ .headLeft rfl rfl

/-- C10: a WebSocket message of type emergency_stop sets `isEmergencyStopped`,
clears `isMoving`, and leaves every other dashboard field — status, event
logs, AI summary, connection status and the rest — unchanged. -/
theorem emergency_stop_message_frame (s : DashboardState) :
    (onMessage s .emergencyStop).isEmergencyStopped = true ∧
    (onMessage s .emergencyStop).isMoving = false ∧
    (onMessage s .emergencyStop).status = s.status ∧
    (onMessage s .emergencyStop).eventLogs = s.eventLogs ∧
    (onMessage s .emergencyStop).aiSummary = s.aiSummary ∧
    (onMessage s .emergencyStop).connectionStatus = s.connectionStatus ∧
    (onMessage s .emergencyStop).isLoadingAi = s.isLoadingAi ∧
    (onMessage s .emergencyStop).currentTime = s.currentTime :=
  ⟨rfl, rfl, rfl, rfl, rfl, rfl, rfl, rfl⟩

/-- C9: starting from the initial dashboard state, any sequence of WebSocket
messages leaves at most 100 event-log entries; an alert prepends exactly one
entry (newest first) and drops exactly the oldest entry when the log would
exceed 100; every other message type leaves the event log unchanged. -/
theorem event_log_bounded :
    (∀ msgs : List WsMsg, ((msgs.foldl onMessage initState).eventLogs).length ≤ 100) ∧
    (∀ (s : DashboardState) (d : LogEntry),
      (onMessage s (.alert d)).eventLogs =
        if 100 ≤ s.eventLogs.length then (d :: s.eventLogs).dropLast
        else d :: s.eventLogs) ∧
    (∀ (s : DashboardState) (d : Status),
      (onMessage s (.initialStatus d)).eventLogs = s.eventLogs) ∧
    (∀ (s : DashboardState) (d : Status),
      (onMessage s (.statusUpdate d)).eventLogs = s.eventLogs) ∧
    (∀ s : DashboardState, (onMessage s .emergencyStop).eventLogs = s.eventLogs) ∧
    (∀ s : DashboardState, (onMessage s .other).eventLogs = s.eventLogs) := by
  refine ⟨fun msgs => foldl_onMessage_le msgs initState (by simp [initState]),
    ?_, fun s d => rfl, fun s d => rfl, fun s => rfl, fun s => rfl⟩
  intro s d
  simp only [onMessage, List.length_cons, gt_iff_lt]
  by_cases h : 100 ≤ s.eventLogs.length
  · rw [if_pos (by omega), if_pos h]
  · rw [if_neg (by omega), if_neg h]

/-- C6 counterexample: the claim says the paused placeholder is shown
regardless of the stored `next_rotation_time`, but with the schedule paused
and `next_rotation_time` absent the countdown shows the plain placeholder,
because src/App.vue checks `next_rotation_time` before `is_paused`. -/
theorem paused_countdown_counterexample :
    pausedNoNextStatus.is_paused = true ∧
    nextRotationCountdown { initState with status := some pausedNoNextStatus } 0 = "--:--" ∧
    ("--:--" : String) ≠ "⏸️ --:--" := by
  refine ⟨rfl, rfl, ?_⟩
  decide

/-- C6 (amended): while paused, `isDue` always returns false; the dashboard
countdown shows the paused placeholder whenever the schedule is paused and a
`next_rotation_time` is stored, and the plain placeholder when
`next_rotation_time` is absent, paused or not. -/
theorem paused_schedule_behavior (sch : Scheduler) (now : Int)
    (s sN : DashboardState) (st stN : Status) (t : Int)
    (hp : sch.paused = true)
    (hs : s.status = some st) (hps : st.is_paused = true)
    (ht : st.next_rotation_time = some t)
    (hsN : sN.status = some stN)
    (htN : stN.next_rotation_time = none) :
    isDue sch now = false ∧
    nextRotationCountdown s now = "⏸️ --:--" ∧
    nextRotationCountdown sN now = "--:--" := by
  refine ⟨by simp [isDue, hp], ?_, ?_⟩
  · simp [nextRotationCountdown, hs, ht, hps]
  · simp [nextRotationCountdown, hsN, htN]

theorem paused_schedule_behavior_witness :
    isDue ⟨0, 5400000, true⟩ 999999999 = false ∧
    nextRotationCountdown { initState with status := some pausedWithNextStatus } 999999999 = "⏸️ --:--" ∧
    nextRotationCountdown { initState with status := some pausedNoNextStatus } 999999999 = "--:--" :=
  paused_schedule_behavior ⟨0, 5400000, true⟩ 999999999
    { initState with status := some pausedWithNextStatus }
    { initState with status := some pausedNoNextStatus }
    pausedWithNextStatus pausedNoNextStatus 100000
    rfl rfl rfl rfl rfl rfl

/-- C7: every position value the dashboard can send comes from its closed
three-element `positions` list, each parses to a canonical `Position`, and the
planner's `InvalidTarget` branch is unreachable for such requests. -/
theorem dashboard_targets_never_invalid (p : PosEntry) (hp : p ∈ positions)
    (cal : ℚ) (current : Position) (n : Nat) :
    (parsePosition p.value).isSome = true ∧
    planFromRequest cal current p.value n ≠ .error .invalidTarget := by
  fin_cases hp <;> refine ⟨rfl, ?_⟩
  · show plan cal current Position.supine n ≠ Except.error PlanError.invalidTarget
    unfold plan
    split <;> simp
  · show plan cal current Position.leftLateral30 n ≠ Except.error PlanError.invalidTarget
    unfold plan
    split <;> simp
  · show plan cal current Position.rightLateral30 n ≠ Except.error PlanError.invalidTarget
    unfold plan
    split <;> simp

theorem dashboard_targets_never_invalid_witness :
    (parsePosition ("supine")).isSome = true ∧
    planFromRequest 1 Position.supine ("supine") 30 ≠ Except.error PlanError.invalidTarget :=
  dashboard_targets_never_invalid
    { value := "supine", nameKo := "앙와위", nameEn := "Supine", emoji := "🛏️" }
    (by simp [positions]) 1 Position.supine 30

/-- C8 counterexample: with 100 minutes remaining the countdown renders three
minute digits ("100:00"), so the display is not always two zero-padded digits
of minutes (a two-digit mm:ss string has length 5; this one has length 6). -/
theorem countdown_three_digit_minutes :
    longWaitStatus.is_paused = false ∧
    nextRotationCountdown { initState with status := some longWaitStatus } 0 = "100:00" ∧
    (nextRotationCountdown { initState with status := some longWaitStatus } 0).length ≠ 5 := by
  refine ⟨rfl, by decide, by decide⟩

/-- C8 (amended): the countdown is total and clamped — an absent status or an
absent `next_rotation_time` gives the placeholder; otherwise (not paused) the
remaining time, clamped at zero, is rendered as minutes and seconds each
zero-padded to at least two digits (exactly two whenever minutes < 100;
seconds are always below 60, hence always exactly two digits); any due time at
or before the current time renders exactly "00:00". -/
theorem countdown_total_clamped (s s0 sN : DashboardState) (st st0 : Status)
    (now next : Int)
    (hs : s.status = some st) (hp : st.is_paused = false)
    (ht : st.next_rotation_time = some next)
    (hs0 : s0.status = some st0) (ht0 : st0.next_rotation_time = none)
    (hsN : sN.status = none) :
    nextRotationCountdown sN now = "--:--" ∧
    nextRotationCountdown s0 now = "--:--" ∧
    nextRotationCountdown s now =
      padStart2 (toString ((max 0 (next - now)).toNat / 60000)) ++ ":" ++
        padStart2 (toString ((max 0 (next - now)).toNat % 60000 / 1000)) ∧
    (max 0 (next - now)).toNat % 60000 / 1000 < 60 ∧
    (padStart2 (toString ((max 0 (next - now)).toNat % 60000 / 1000))).length = 2 ∧
    ((max 0 (next - now)).toNat / 60000 < 100 →
      (padStart2 (toString ((max 0 (next - now)).toNat / 60000))).length = 2) ∧
    (next ≤ now → nextRotationCountdown s now = "00:00") := by
  refine ⟨by simp [nextRotationCountdown, hsN], by simp [nextRotationCountdown, hs0, ht0],
    ?_, by omega, ?_, ?_, ?_⟩
  · simp [nextRotationCountdown, hs, ht, hp]
  · exact padStart2_length_two _ (by omega)
  · intro h
    exact padStart2_length_two _ h
  · intro h
    have hm : max 0 (next - now) = 0 := by omega
    simp only [nextRotationCountdown, hs, ht, hp, hm, Bool.false_eq_true, if_false]
    decide

theorem countdown_total_clamped_witness :
    nextRotationCountdown initState 0 = "--:--" ∧
    nextRotationCountdown { initState with status := some pausedNoNextStatus } 0 = "--:--" ∧
    nextRotationCountdown { initState with status := some dueNowStatus } 0 =
      padStart2 (toString ((max 0 ((0 : Int) - (0 : Int))).toNat / 60000)) ++ ":" ++
        padStart2 (toString ((max 0 ((0 : Int) - (0 : Int))).toNat % 60000 / 1000)) ∧
    (max 0 ((0 : Int) - (0 : Int))).toNat % 60000 / 1000 < 60 ∧
    (padStart2 (toString ((max 0 ((0 : Int) - (0 : Int))).toNat % 60000 / 1000))).length = 2 ∧
    ((max 0 ((0 : Int) - (0 : Int))).toNat / 60000 < 100 →
      (padStart2 (toString ((max 0 ((0 : Int) - (0 : Int))).toNat / 60000))).length = 2) ∧
    ((0 : Int) ≤ (0 : Int) →
      nextRotationCountdown { initState with status := some dueNowStatus } 0 = "00:00") :=
  countdown_total_clamped
    { initState with status := some dueNowStatus }
    { initState with status := some pausedNoNextStatus }
    initState dueNowStatus pausedNoNextStatus 0 0
    rfl rfl rfl rfl rfl rfl

/-- The `i`-th step of `planSteps` is the linear interpolation formula. -/
theorem planSteps_getD (cal : ℚ) (current target : Position) (n i : Nat) (hi : i < n) :
    (planSteps cal current target n).getD i (fun _ => 0) = fun a =>
      canonical cal current a +
        (canonical cal target a - canonical cal current a) * ((i : ℚ) + 1) / (n : ℚ) := by
  unfold planSteps
  rw [List.getD_eq_getElem?_getD, List.getElem?_map, List.getElem?_range hi]
  rfl

/-- C5: for every pair of Positions and every stepCount `n ≥ 1`, the plan
succeeds with `n` steps, each step follows the linear-interpolation formula
`start + (end - start) * i / n` per actuator, the first step's per-actuator
delta magnitude is at most `1/n` of the full delta, and the last step equals
the target's canonical extension vector. -/
theorem plan_linear (cal : ℚ) (current target : Position) (n i : Nat)
    (h : 1 ≤ n) (hi : i < n) (a : ActuatorId) :
    plan cal current target n = .ok (planSteps cal current target n) ∧
    (planSteps cal current target n).length = n ∧
    (planSteps cal current target n).getD i (fun _ => 0) a =
      canonical cal current a +
        (canonical cal target a - canonical cal current a) * ((i : ℚ) + 1) / (n : ℚ) ∧
    |(planSteps cal current target n).getD 0 (fun _ => 0) a - canonical cal current a| ≤
      |canonical cal target a - canonical cal current a| / (n : ℚ) ∧
    (planSteps cal current target n).getD (n - 1) (fun _ => 0) a =
      canonical cal target a := by
  have hne : (n : ℚ) ≠ 0 := Nat.cast_ne_zero.mpr (by omega)
  have hpos : (0 : ℚ) < (n : ℚ) := by exact_mod_cast Nat.pos_of_ne_zero (by omega)
  refine ⟨?_, ?_, ?_, ?_, ?_⟩
  · unfold plan
    rw [if_neg (by omega)]
  · unfold planSteps
    simp
  · exact congrFun (planSteps_getD cal current target n i hi) a
  · rw [congrFun (planSteps_getD cal current target n 0 (by omega)) a]
    have he : canonical cal current a +
        (canonical cal target a - canonical cal current a) * (((0 : ℕ) : ℚ) + 1) / (n : ℚ) -
        canonical cal current a =
        (canonical cal target a - canonical cal current a) / (n : ℚ) := by
      push_cast
      ring
    rw [he, abs_div, abs_of_pos hpos]
  · rw [congrFun (planSteps_getD cal current target n (n - 1) (by omega)) a]
    have hcast : ((n - 1 : ℕ) : ℚ) + 1 = (n : ℚ) := by
      have h1 : (n - 1) + 1 = n := by omega
      exact_mod_cast h1
    rw [hcast, mul_div_assoc, div_self hne, mul_one]
    ring

theorem plan_linear_witness :
    plan 1 Position.supine Position.leftLateral30 30 =
      .ok (planSteps 1 Position.supine Position.leftLateral30 30) ∧
    (planSteps 1 Position.supine Position.leftLateral30 30).length = 30 ∧
    (planSteps 1 Position.supine Position.leftLateral30 30).getD 5 (fun _ => 0) ActuatorId.headLeft =
      canonical 1 Position.supine ActuatorId.headLeft +
        (canonical 1 Position.leftLateral30 ActuatorId.headLeft -
          canonical 1 Position.supine ActuatorId.headLeft) * (((5 : ℕ) : ℚ) + 1) / ((30 : ℕ) : ℚ) ∧
    |(planSteps 1 Position.supine Position.leftLateral30 30).getD 0 (fun _ => 0) ActuatorId.headLeft -
        canonical 1 Position.supine ActuatorId.headLeft| ≤
      |canonical 1 Position.leftLateral30 ActuatorId.headLeft -
          canonical 1 Position.supine ActuatorId.headLeft| / ((30 : ℕ) : ℚ) ∧
    (planSteps 1 Position.supine Position.leftLateral30 30).getD (30 - 1) (fun _ => 0) ActuatorId.headLeft =
      canonical 1 Position.leftLateral30 ActuatorId.headLeft :=
  plan_linear 1 Position.supine Position.leftLateral30 30 5 (by decide) (by decide) ActuatorId.headLeft
